import Mathlib

/-!
Verification of the GUI windowing code in `src/gui/main_window.py`
(classes `MainWindow` and `InteractiveCanvas`).

The embedding models:

* `InteractiveCanvas`: its mutable state (`_is_panning`, `_pan_start`,
  `_xlim`/`_ylim` caches, `_orig_xlim`/`_orig_ylim`, the lock flags,
  `is_zoomed`, `plot_type`) together with the matplotlib axes limits
  (`get_xlim`/`set_xlim`), and the four event handlers `wheelEvent`,
  `mousePressEvent`, `mouseMoveEvent`, `mouseReleaseEvent` plus the two
  reconfiguration helpers `configure_imgae_plot` and `configure_hist_plot`.
  Coordinates are rationals.  A handler returns `none` where the Python
  code would raise (`None` subscripted, division by a zero widget size).
  Python `None`-or-`0` (falsy) values of `self._xlim` / `self._orig_xlim`
  are modelled as `Option.none`.
* `MainWindow.find_insert_index` over the content layout, modelled as a
  list of layout items (`Option Widget`: `itemAt(i).widget()` may be
  `None`), where a widget is its identity plus its `geometry()` rectangle,
  and `QRect.contains` uses Qt integer-rectangle semantics
  (`right = x + w - 1`, `bottom = y + h - 1`).
* `MainWindow.dropEvent`, whose observable behaviour (calls into the
  pipeline and layout, in order) is recorded as a trace of effects.
-/

/-- One data-space value pair as returned by `get_xlim` / `get_ylim`. -/
abbrev Lim := ℚ × ℚ

/-- The state of an `InteractiveCanvas` that the event handlers read and
write.  `xlim`/`ylim` are the live axes limits (`_axes.get_xlim()`),
`saved_xlim`/`saved_ylim` model `self._xlim`/`self._ylim` (with `none`
for the falsy values `None` and `0`), `orig_xlim`/`orig_ylim` model
`self._orig_xlim`/`self._orig_ylim`, and `width`/`height` are the widget
pixel sizes used by `mouseMoveEvent`. -/
structure Canvas where
  is_panning : Bool
  pan_start : Option (ℚ × ℚ)
  xlim : Lim
  ylim : Lim
  saved_xlim : Option Lim
  saved_ylim : Option Lim
  orig_xlim : Option Lim
  orig_ylim : Option Lim
  lock_x_zoom : Bool
  lock_y_zoom : Bool
  is_zoomed : Bool
  plot_type : String
  width : ℚ
  height : ℚ
deriving DecidableEq

/-- The canvas state right after `InteractiveCanvas.__init__`. -/
def initCanvas (w h : ℚ) : Canvas where
  is_panning := false
  pan_start := none
  xlim := (0, 1)
  ylim := (0, 1)
  saved_xlim := none
  saved_ylim := none
  orig_xlim := none
  orig_ylim := none
  lock_x_zoom := false
  lock_y_zoom := false
  is_zoomed := false
  plot_type := "image"
  width := w
  height := h

/-- `factor = 1.05 if step < 0 else 0.95` in `wheelEvent`. -/
def zoom_factor (step : ℤ) : ℚ :=
  if step < 0 then 105 / 100 else 95 / 100

/-- The candidate limits `wheelEvent` computes before clamping:
`[d - (d - lim[0]) * factor, d + (lim[1] - d) * factor]`. -/
def zoom_candidate (lim : Lim) (d factor : ℚ) : Lim :=
  (d - (d - lim.1) * factor, d + (lim.2 - d) * factor)

/-- The clamp `wheelEvent` applies to the x candidate for non-histogram
plots: `_xlim[0] = max(0, _xlim[0]); _xlim[1] = min(_orig_xlim[1], _xlim[1])`. -/
def clamp_xlim (xl ox : Lim) : Lim :=
  (max 0 xl.1, min ox.2 xl.2)

/-- The clamp `wheelEvent` applies to the y candidate for non-histogram
plots: `_ylim[1] = max(0, _ylim[1]); _ylim[0] = min(_orig_ylim[0], _ylim[0])`. -/
def clamp_ylim (yl oy : Lim) : Lim :=
  (min oy.1 yl.1, max 0 yl.2)

/-- `configure_imgae_plot` (name as in the source): when not zoomed it
records the current axes limits in `_orig_xlim`/`_orig_ylim`; then, if
`self._xlim and self._ylim` are truthy, it restores them as the axes
limits.  The purely graphical statements (`axis('off')`, face color,
margins) have no modelled effect. -/
def configure_imgae_plot (c : Canvas) : Canvas :=
  let c1 := if c.is_zoomed then c
            else { c with orig_xlim := some c.xlim, orig_ylim := some c.ylim }
  match c1.saved_xlim, c1.saved_ylim with
  | some xs, some ys => { c1 with xlim := xs, ylim := ys }
  | _, _ => c1

/-- `configure_hist_plot`: when not zoomed it sets the x limits to
`(-1, 256)`; then, if `self._xlim and self._ylim` are truthy, it restores
them as the axes limits.  Locators, aspect and layout are graphical only. -/
def configure_hist_plot (c : Canvas) : Canvas :=
  let c1 := if c.is_zoomed then c else { c with xlim := (-1, 256) }
  match c1.saved_xlim, c1.saved_ylim with
  | some xs, some ys => { c1 with xlim := xs, ylim := ys }
  | _, _ => c1

/-- The limits `wheelEvent` computes after the (conditional) clamping and
before the lock override.  Returns `none` exactly when the Python code
raises: in the non-histogram branch it subscripts `self._orig_xlim` and
`self._orig_ylim`, which fails if either is still `None`. -/
def wheel_computed (c : Canvas) (xdata ydata : ℚ) (step : ℤ) : Option (Lim × Lim) :=
  let factor := zoom_factor step
  let nx := zoom_candidate c.xlim xdata factor
  let ny := zoom_candidate c.ylim ydata factor
  if c.plot_type = "histogram" then some (nx, ny)
  else
    match c.orig_xlim, c.orig_ylim with
    | some ox, some oy => some (clamp_xlim nx ox, clamp_ylim ny oy)
    | _, _ => none

/-- `InteractiveCanvas.wheelEvent`.  `xdata`/`ydata` are the cursor
position mapped through `transData.inverted()` (an input of the model),
`step` is `event.angleDelta().y()`.  After computing and clamping the
candidate limits it applies the lock overrides, stores the result in
`self._xlim`/`self._ylim`, sets the axes limits, reconfigures the figure
according to `plot_type`, and marks the canvas zoomed.  (`self._axes` is
created in `__init__` and never becomes `None`, so the initial guard
never returns early.)  `none` models an exception escaping the handler. -/
def wheelEvent (c : Canvas) (xdata ydata : ℚ) (step : ℤ) : Option Canvas :=
  match wheel_computed c xdata ydata step with
  | none => none
  | some (nx, ny) =>
    let fx := if c.lock_x_zoom then c.xlim else nx
    let fy := if c.lock_y_zoom then c.ylim else ny
    let c1 : Canvas :=
      { c with saved_xlim := some fx, saved_ylim := some fy, xlim := fx, ylim := fy }
    let c2 := if c1.plot_type = "image" then configure_imgae_plot c1
              else if c1.plot_type = "histogram" then configure_hist_plot c1
              else c1
    some { c2 with is_zoomed := true }

/-- Mouse buttons as compared against `Qt.LeftButton`. -/
inductive MouseButton where
  | left
  | right
  | middle
deriving DecidableEq

/-- `InteractiveCanvas.mousePressEvent`: a left-button press starts
panning and records the press position. -/
def mousePressEvent (c : Canvas) (button : MouseButton) (px py : ℚ) : Canvas :=
  if button = MouseButton.left then
    { c with is_panning := true, pan_start := some (px, py) }
  else c

/-- `InteractiveCanvas.mouseReleaseEvent`: a left-button release stops
panning and clears the recorded position. -/
def mouseReleaseEvent (c : Canvas) (button : MouseButton) : Canvas :=
  if button = MouseButton.left then
    { c with is_panning := false, pan_start := none }
  else c

/-- The x-limit update decision of `mouseMoveEvent` for non-histogram
plots: `if not (_xlim[0] < 0 or _xlim[1] > _orig_xlim[1]): set_xlim(_xlim)`.
Python short-circuits, so `_orig_xlim` is only subscripted when
`_xlim[0] >= 0`; `none` models the `TypeError` when it is `None` there. -/
def pan_apply_x (c : Canvas) (nx : Lim) : Option Lim :=
  if nx.1 < 0 then some c.xlim
  else
    match c.orig_xlim with
    | none => none
    | some ox => if nx.2 > ox.2 then some c.xlim else some nx

/-- The y-limit update decision of `mouseMoveEvent` for non-histogram
plots: `if not (_ylim[1] < 0 or _ylim[0] > _orig_ylim[0]): set_ylim(_ylim)`. -/
def pan_apply_y (c : Canvas) (ny : Lim) : Option Lim :=
  if ny.2 < 0 then some c.ylim
  else
    match c.orig_ylim with
    | none => none
    | some oy => if ny.1 > oy.1 then some c.ylim else some ny

/-- The shifted x limits `mouseMoveEvent` computes:
`dx = pos.x - pan_start.x`, `dx_data = dx / width * (xlim[1] - xlim[0])`,
`_xlim = [xlim[0] - dx_data, xlim[1] - dx_data]`. -/
def pan_shifted_xlim (c : Canvas) (ps : ℚ × ℚ) (px : ℚ) : Lim :=
  (c.xlim.1 - (px - ps.1) / c.width * (c.xlim.2 - c.xlim.1),
   c.xlim.2 - (px - ps.1) / c.width * (c.xlim.2 - c.xlim.1))

/-- The shifted y limits `mouseMoveEvent` computes:
`dy = pos.y - pan_start.y`, `dy_data = dy / height * (ylim[1] - ylim[0])`,
`_ylim = [ylim[0] + dy_data, ylim[1] + dy_data]`. -/
def pan_shifted_ylim (c : Canvas) (ps : ℚ × ℚ) (py : ℚ) : Lim :=
  (c.ylim.1 + (py - ps.2) / c.height * (c.ylim.2 - c.ylim.1),
   c.ylim.2 + (py - ps.2) / c.height * (c.ylim.2 - c.ylim.1))

/-- `InteractiveCanvas.mouseMoveEvent` at cursor position `(px, py)`.
When `self._is_panning and self._pan_start` is truthy it shifts the
current limits by the pixel delta scaled into data coordinates, applies
them (unconditionally for histograms, clamped otherwise), advances
`_pan_start`, and marks the canvas zoomed; otherwise it does nothing.
`none` models an exception (zero widget size in the division, or `None`
subscripted in a clamp check). -/
def mouseMoveEvent (c : Canvas) (px py : ℚ) : Option Canvas :=
  match c.pan_start with
  | none => some c
  | some ps =>
    if c.is_panning then
      if c.width = 0 ∨ c.height = 0 then none
      else
        let nx := pan_shifted_xlim c ps px
        let ny := pan_shifted_ylim c ps py
        let c1 : Canvas := { c with saved_xlim := some nx, saved_ylim := some ny }
        if c.plot_type = "histogram" then
          some { c1 with xlim := nx, ylim := ny,
                         pan_start := some (px, py), is_zoomed := true }
        else
          match pan_apply_x c nx, pan_apply_y c ny with
          | some ax, some ay =>
            some { c1 with xlim := ax, ylim := ay,
                           pan_start := some (px, py), is_zoomed := true }
          | _, _ => none
    else some c

/-- The Qt events an `InteractiveCanvas` handles. -/
inductive CanvasEvent where
  | wheel (xdata ydata : ℚ) (step : ℤ)
  | press (button : MouseButton) (px py : ℚ)
  | move (px py : ℚ)
  | release (button : MouseButton)

/-- Dispatch one event to the canvas handler that receives it. -/
def handleEvent (c : Canvas) : CanvasEvent → Option Canvas
  | CanvasEvent.wheel xd yd s => wheelEvent c xd yd s
  | CanvasEvent.press b px py => some (mousePressEvent c b px py)
  | CanvasEvent.move px py => mouseMoveEvent c px py
  | CanvasEvent.release b => some (mouseReleaseEvent c b)

/-- Run a sequence of mouse-move events (a pan gesture), stopping with
`none` if any handler raises. -/
def panMoves (c : Canvas) : List (ℚ × ℚ) → Option Canvas
  | [] => some c
  | p :: ps =>
    match mouseMoveEvent c p.1 p.2 with
    | none => none
    | some c1 => panMoves c1 ps

/-- A Qt integer rectangle, as returned by `widget.geometry()`. -/
structure Rect where
  x : ℤ
  y : ℤ
  w : ℤ
  h : ℤ
deriving DecidableEq

/-- `QRect.contains(QPoint)`: inside or on the edge, with Qt semantics
`right() = x + w - 1` and `bottom() = y + h - 1`. -/
def Rect.containsPt (r : Rect) (p : ℤ × ℤ) : Bool :=
  decide (r.x ≤ p.1) && decide (p.1 ≤ r.x + r.w - 1) &&
  decide (r.y ≤ p.2) && decide (p.2 ≤ r.y + r.h - 1)

/-- A widget in the content layout: its identity (`wid`, modelling Python
object identity, which is what `widget != self.add_new_box` compares) and
its `geometry()`. -/
structure Widget where
  wid : ℕ
  geometry : Rect
deriving DecidableEq

/-- The loop body of `find_insert_index`, scanning layout items from
index `i` upward: `itemAt(i).widget()` may be `None` (skipped by the
`if widget` check); the first item holding a widget other than
`add_new_box` whose geometry contains `pos` gives the result. -/
def find_insert_index_loop (addNewBox : Widget) (pos : ℤ × ℤ) :
    ℕ → List (Option Widget) → Option ℕ
  | _, [] => none
  | i, none :: rest => find_insert_index_loop addNewBox pos (i + 1) rest
  | i, some w :: rest =>
    if w ≠ addNewBox ∧ w.geometry.containsPt pos then some i
    else find_insert_index_loop addNewBox pos (i + 1) rest

/-- `MainWindow.find_insert_index(pos)`: the index found by the scan, or
`contentLayout.count() - 1` when no widget matches (an `Int`, since for an
empty layout Python returns `-1`). -/
def find_insert_index (layout : List (Option Widget)) (addNewBox : Widget)
    (pos : ℤ × ℤ) : ℤ :=
  match find_insert_index_loop addNewBox pos 0 layout with
  | some i => (i : ℤ)
  | none => (layout.length : ℤ) - 1

/-- The drag source of a drop event: `event.source()` may be `None`
(modelled by `Option`), and `isinstance(source, toolbox_bases.Toolbox)` is
the `isToolbox` flag. -/
structure DragSource where
  sid : ℕ
  isToolbox : Bool

/-- The externally observable actions `MainWindow.dropEvent` performs, in
order: `pipeline.move_step`, `contentLayout.removeWidget`,
`contentLayout.insertWidget`, `event.acceptProposedAction`,
`pipeline_on_change`. -/
inductive DropEffect where
  | moveStep (sid : ℕ) (index : ℤ)
  | removeWidget (sid : ℕ)
  | insertWidget (index : ℤ) (sid : ℕ)
  | acceptAction
  | pipelineOnChange
deriving DecidableEq

/-- `MainWindow.dropEvent` as the trace of effects it performs.  The body
runs only under `if source and isinstance(source, toolbox_bases.Toolbox)`
(a widget instance is always truthy, so the guard is equivalent to the
`isinstance` test on a non-`None` source); otherwise the handler falls
through without touching the pipeline, the layout, or the event. -/
def dropEvent (layout : List (Option Widget)) (addNewBox : Widget)
    (pos : ℤ × ℤ) (source : Option DragSource) : List DropEffect :=
  let index := find_insert_index layout addNewBox pos
  match source with
  | none => []
  | some s =>
    if s.isToolbox then
      [DropEffect.moveStep s.sid index,
       DropEffect.removeWidget s.sid,
       DropEffect.insertWidget index s.sid,
       DropEffect.acceptAction,
       DropEffect.pipelineOnChange]
    else []

/-- Modelled from the spec: `pipeline.move_step(source, index)` lives in
the excluded `toolbox_bases`/pipeline collaborator; per the spec it moves
the given step to position `index` in the linear pipeline.  The same
remove-then-insert-at-index operation is what `dropEvent` performs on the
layout, so one shared definition captures both reorderings. -/
def move_to_index (l : List ℕ) (x : ℕ) (index : ℕ) : List ℕ :=
  (l.erase x).insertIdx index x

/-- `dropMatch layout addNewBox pos i`: layout position `i` holds a
widget other than `add_new_box` whose geometry contains `pos` (the
condition on which `find_insert_index` returns `i`). -/
def dropMatch (layout : List (Option Widget)) (addNewBox : Widget)
    (pos : ℤ × ℤ) (i : ℕ) : Prop :=
  ∃ w, layout.get? i = some (some w) ∧ w ≠ addNewBox ∧
    w.geometry.containsPt pos = true

/-- When `self._xlim`/`self._ylim` are set, `configure_imgae_plot`
restores them as the axes limits and touches nothing the event handlers
branch on. -/
lemma configure_imgae_plot_frame (c : Canvas) (xs ys : Lim)
    (hx : c.saved_xlim = some xs) (hy : c.saved_ylim = some ys) :
    (configure_imgae_plot c).xlim = xs ∧ (configure_imgae_plot c).ylim = ys ∧
    (configure_imgae_plot c).is_panning = c.is_panning ∧
    (configure_imgae_plot c).pan_start = c.pan_start := by
  unfold configure_imgae_plot
  split <;> simp [hx, hy]

/-- When `self._xlim`/`self._ylim` are set, `configure_hist_plot`
restores them as the axes limits and touches nothing the event handlers
branch on. -/
lemma configure_hist_plot_frame (c : Canvas) (xs ys : Lim)
    (hx : c.saved_xlim = some xs) (hy : c.saved_ylim = some ys) :
    (configure_hist_plot c).xlim = xs ∧ (configure_hist_plot c).ylim = ys ∧
    (configure_hist_plot c).is_panning = c.is_panning ∧
    (configure_hist_plot c).pan_start = c.pan_start := by
  unfold configure_hist_plot
  split <;> simp [hx, hy]

/-- After a wheel event whose computed (post-clamp, pre-lock) limits are
`(nx, ny)`, the axes limits are the lock-overridden values, and the
panning state is untouched. -/
lemma wheelEvent_limits (c : Canvas) (xdata ydata : ℚ) (step : ℤ) (nx ny : Lim)
    (h : wheel_computed c xdata ydata step = some (nx, ny)) :
    ∃ c', wheelEvent c xdata ydata step = some c' ∧
      c'.xlim = (if c.lock_x_zoom then c.xlim else nx) ∧
      c'.ylim = (if c.lock_y_zoom then c.ylim else ny) ∧
      c'.is_panning = c.is_panning ∧ c'.pan_start = c.pan_start := by
  simp only [wheelEvent, h]
  refine ⟨_, rfl, ?_⟩
  split
  · refine ⟨(configure_imgae_plot_frame _ _ _ rfl rfl).1,
      (configure_imgae_plot_frame _ _ _ rfl rfl).2.1,
      (configure_imgae_plot_frame _ _ _ rfl rfl).2.2.1,
      (configure_imgae_plot_frame _ _ _ rfl rfl).2.2.2⟩
  · split
    · refine ⟨(configure_hist_plot_frame _ _ _ rfl rfl).1,
        (configure_hist_plot_frame _ _ _ rfl rfl).2.1,
        (configure_hist_plot_frame _ _ _ rfl rfl).2.2.1,
        (configure_hist_plot_frame _ _ _ rfl rfl).2.2.2⟩
    · exact ⟨rfl, rfl, rfl, rfl⟩

/-- `pan_apply_x` never raises when `_orig_xlim` is recorded, and then it
returns the shifted limits exactly when they stay within `[0, _orig_xlim[1]]`,
and the untouched current limits otherwise. -/
lemma pan_apply_x_eq (c : Canvas) (nx ox : Lim) (hox : c.orig_xlim = some ox) :
    pan_apply_x c nx = some (if 0 ≤ nx.1 ∧ nx.2 ≤ ox.2 then nx else c.xlim) := by
  unfold pan_apply_x
  rw [hox]
  by_cases h1 : nx.1 < 0
  · rw [if_pos h1, if_neg (by intro h; exact absurd h.1 (not_le.mpr h1))]
  · rw [if_neg h1]
    show (if nx.2 > ox.2 then some c.xlim else some nx) = _
    by_cases h2 : nx.2 > ox.2
    · rw [if_pos h2, if_neg (by intro h; exact absurd h.2 (not_le.mpr h2))]
    · rw [if_neg h2, if_pos ⟨not_lt.mp h1, not_lt.mp h2⟩]

/-- `pan_apply_y` never raises when `_orig_ylim` is recorded, and then it
returns the shifted limits exactly when they satisfy
`_ylim[1] >= 0` and `_ylim[0] <= _orig_ylim[0]`. -/
lemma pan_apply_y_eq (c : Canvas) (ny oy : Lim) (hoy : c.orig_ylim = some oy) :
    pan_apply_y c ny = some (if 0 ≤ ny.2 ∧ ny.1 ≤ oy.1 then ny else c.ylim) := by
  unfold pan_apply_y
  rw [hoy]
  by_cases h1 : ny.2 < 0
  · rw [if_pos h1, if_neg (by intro h; exact absurd h.1 (not_le.mpr h1))]
  · rw [if_neg h1]
    show (if ny.1 > oy.1 then some c.ylim else some ny) = _
    by_cases h2 : ny.1 > oy.1
    · rw [if_pos h2, if_neg (by intro h; exact absurd h.2 (not_le.mpr h2))]
    · rw [if_neg h2, if_pos ⟨not_lt.mp h1, not_lt.mp h2⟩]

/-- A successful `pan_apply_x` yields either the untouched or the shifted
limits. -/
lemma pan_apply_x_cases (c : Canvas) (nx ax : Lim)
    (h : pan_apply_x c nx = some ax) : ax = c.xlim ∨ ax = nx := by
  unfold pan_apply_x at h
  split at h
  · exact Or.inl (Option.some.inj h).symm
  · split at h
    · cases h
    · split at h
      · exact Or.inl (Option.some.inj h).symm
      · exact Or.inr (Option.some.inj h).symm

/-- A successful `pan_apply_y` yields either the untouched or the shifted
limits. -/
lemma pan_apply_y_cases (c : Canvas) (ny ay : Lim)
    (h : pan_apply_y c ny = some ay) : ay = c.ylim ∨ ay = ny := by
  unfold pan_apply_y at h
  split at h
  · exact Or.inl (Option.some.inj h).symm
  · split at h
    · cases h
    · split at h
      · exact Or.inl (Option.some.inj h).symm
      · exact Or.inr (Option.some.inj h).symm

/-- Shifting the x limits preserves their width. -/
lemma pan_shifted_xlim_width (c : Canvas) (ps : ℚ × ℚ) (px : ℚ) :
    (pan_shifted_xlim c ps px).2 - (pan_shifted_xlim c ps px).1
      = c.xlim.2 - c.xlim.1 := by
  unfold pan_shifted_xlim; ring

/-- Shifting the y limits preserves their width. -/
lemma pan_shifted_ylim_width (c : Canvas) (ps : ℚ × ℚ) (py : ℚ) :
    (pan_shifted_ylim c ps py).2 - (pan_shifted_ylim c ps py).1
      = c.ylim.2 - c.ylim.1 := by
  unfold pan_shifted_ylim; ring

/-- A mouse move with no recorded pan start does nothing. -/
lemma mouseMoveEvent_no_start (c : Canvas) (px py : ℚ)
    (h : c.pan_start = none) : mouseMoveEvent c px py = some c := by
  unfold mouseMoveEvent; rw [h]

/-- A mouse move while not panning does nothing. -/
lemma mouseMoveEvent_not_panning (c : Canvas) (px py : ℚ)
    (h : c.is_panning = false) : mouseMoveEvent c px py = some c := by
  unfold mouseMoveEvent
  cases hps : c.pan_start <;> simp [h]

/-- Exhaustive description of a successful mouse move: either the canvas
is left untouched (not panning / no pan start), or the limits were
shifted-and-applied as the handler prescribes. -/
lemma mouseMoveEvent_some_cases (c : Canvas) (px py : ℚ) (c' : Canvas)
    (h : mouseMoveEvent c px py = some c') :
    c' = c ∨
    ∃ ps ax ay, c.pan_start = some ps ∧ c.is_panning = true ∧
      (ax = c.xlim ∨ ax = pan_shifted_xlim c ps px) ∧
      (ay = c.ylim ∨ ay = pan_shifted_ylim c ps py) ∧
      (c.plot_type = "histogram" →
        ax = pan_shifted_xlim c ps px ∧ ay = pan_shifted_ylim c ps py) ∧
      (c.plot_type ≠ "histogram" →
        pan_apply_x c (pan_shifted_xlim c ps px) = some ax ∧
        pan_apply_y c (pan_shifted_ylim c ps py) = some ay) ∧
      c' = { c with saved_xlim := some (pan_shifted_xlim c ps px),
                    saved_ylim := some (pan_shifted_ylim c ps py),
                    xlim := ax, ylim := ay,
                    pan_start := some (px, py), is_zoomed := true } := by
  unfold mouseMoveEvent at h
  split at h
  · exact Or.inl (Option.some.inj h).symm
  · rename_i ps hps
    split at h
    · split at h
      · cases h
      · rename_i hpan hwz
        split at h
        · rename_i hhist
          exact Or.inr ⟨ps, _, _, hps, hpan, Or.inr rfl, Or.inr rfl,
            fun _ => ⟨rfl, rfl⟩, fun hh => absurd hhist hh,
            (Option.some.inj h).symm⟩
        · rename_i hhist
          dsimp only at h
          split at h
          · rename_i ax ay hax hay
            exact Or.inr ⟨ps, ax, ay, hps, hpan,
              pan_apply_x_cases _ _ _ hax, pan_apply_y_cases _ _ _ hay,
              fun hh => absurd hh hhist, fun _ => ⟨hax, hay⟩,
              (Option.some.inj h).symm⟩
          · cases h
    · exact Or.inl (Option.some.inj h).symm

/-- A mouse move never touches the panning flag, the plot type, the
recorded original limits, or the widget size. -/
lemma mouseMoveEvent_frame (c : Canvas) (px py : ℚ) (c' : Canvas)
    (h : mouseMoveEvent c px py = some c') :
    c'.is_panning = c.is_panning ∧ c'.plot_type = c.plot_type ∧
    c'.orig_xlim = c.orig_xlim ∧ c'.orig_ylim = c.orig_ylim ∧
    c'.width = c.width ∧ c'.height = c.height := by
  rcases mouseMoveEvent_some_cases c px py c' h with rfl |
    ⟨ps, ax, ay, _, _, _, _, _, _, rfl⟩
  · exact ⟨rfl, rfl, rfl, rfl, rfl, rfl⟩
  · exact ⟨rfl, rfl, rfl, rfl, rfl, rfl⟩

/-- If the current x limits lie within `[0, _orig_xlim[1]]`, so does any
limit pair `pan_apply_x` returns. -/
lemma pan_apply_x_bounds (c : Canvas) (nx ax ox : Lim)
    (hox : c.orig_xlim = some ox) (hx1 : 0 ≤ c.xlim.1) (hx2 : c.xlim.2 ≤ ox.2)
    (h : pan_apply_x c nx = some ax) : 0 ≤ ax.1 ∧ ax.2 ≤ ox.2 := by
  rw [pan_apply_x_eq c nx ox hox] at h
  have hax := (Option.some.inj h).symm
  subst hax
  split
  · next hcond => exact hcond
  · exact ⟨hx1, hx2⟩

/-- If the current y limits satisfy `ylim[1] >= 0` and
`ylim[0] <= _orig_ylim[0]`, so does any limit pair `pan_apply_y` returns. -/
lemma pan_apply_y_bounds (c : Canvas) (ny ay oy : Lim)
    (hoy : c.orig_ylim = some oy) (hy2 : 0 ≤ c.ylim.2) (hy1 : c.ylim.1 ≤ oy.1)
    (h : pan_apply_y c ny = some ay) : 0 ≤ ay.2 ∧ ay.1 ≤ oy.1 := by
  rw [pan_apply_y_eq c ny oy hoy] at h
  have hay := (Option.some.inj h).symm
  subst hay
  split
  · next hcond => exact hcond
  · exact ⟨hy2, hy1⟩

/-- One mouse move on a non-histogram canvas keeps limits that are within
the recorded original bounds within those bounds. -/
lemma mouseMoveEvent_inBounds (c : Canvas) (px py : ℚ) (c' : Canvas) (ox oy : Lim)
    (hp : c.plot_type ≠ "histogram")
    (hox : c.orig_xlim = some ox) (hoy : c.orig_ylim = some oy)
    (hx1 : 0 ≤ c.xlim.1) (hx2 : c.xlim.2 ≤ ox.2)
    (hy2 : 0 ≤ c.ylim.2) (hy1 : c.ylim.1 ≤ oy.1)
    (h : mouseMoveEvent c px py = some c') :
    0 ≤ c'.xlim.1 ∧ c'.xlim.2 ≤ ox.2 ∧ 0 ≤ c'.ylim.2 ∧ c'.ylim.1 ≤ oy.1 := by
  rcases mouseMoveEvent_some_cases c px py c' h with rfl |
    ⟨ps, ax, ay, _, _, _, _, _, happ, rfl⟩
  · exact ⟨hx1, hx2, hy2, hy1⟩
  · obtain ⟨hax, hay⟩ := happ hp
    obtain ⟨h1, h2⟩ := pan_apply_x_bounds c _ ax ox hox hx1 hx2 hax
    obtain ⟨h3, h4⟩ := pan_apply_y_bounds c _ ay oy hoy hy2 hy1 hay
    exact ⟨h1, h2, h3, h4⟩

/-- A wheel event never touches the panning state. -/
lemma wheelEvent_pan_frame (c : Canvas) (xdata ydata : ℚ) (step : ℤ) (c' : Canvas)
    (h : wheelEvent c xdata ydata step = some c') :
    c'.is_panning = c.is_panning ∧ c'.pan_start = c.pan_start := by
  rcases hw : wheel_computed c xdata ydata step with _ | ⟨nx, ny⟩
  · rw [wheelEvent, hw] at h; cases h
  · obtain ⟨c'', hc'', _, _, h1, h2⟩ := wheelEvent_limits c xdata ydata step nx ny hw
    rw [hc''] at h
    rw [← Option.some.inj h]
    exact ⟨h1, h2⟩

/-- A sample image canvas: original limits recorded as `(0, 100)` and
`(80, 0)` (image y limits are inverted), panning active from pixel
`(10, 10)`, 200×160 widget. -/
def sampleImage : Canvas where
  is_panning := true
  pan_start := some (10, 10)
  xlim := (0, 100)
  ylim := (80, 0)
  saved_xlim := none
  saved_ylim := none
  orig_xlim := some (0, 100)
  orig_ylim := some (80, 0)
  lock_x_zoom := false
  lock_y_zoom := false
  is_zoomed := true
  plot_type := "image"
  width := 200
  height := 160

/-- `sampleImage` with both zoom locks engaged. -/
def lockedImage : Canvas :=
  { sampleImage with lock_x_zoom := true, lock_y_zoom := true }

/-- A sample histogram canvas, panning active from pixel `(10, 10)`. -/
def sampleHist : Canvas :=
  { sampleImage with plot_type := "histogram", xlim := (-1, 256),
                     ylim := (0, 50), orig_xlim := none, orig_ylim := none }

/-- `sampleHist` with both zoom locks engaged. -/
def lockedHist : Canvas :=
  { sampleHist with lock_x_zoom := true, lock_y_zoom := true }

/-- The canvas state after `mouseMoveEvent sampleImage 14 16`: both
shifted limit pairs leave the original bounds, so only the caches, the
pan start and the zoom flag change. -/
def pannedSample : Canvas :=
  { sampleImage with saved_xlim := some (-2, 98), saved_ylim := some (77, -3),
                     pan_start := some (14, 16), is_zoomed := true }

/-- C1: for every wheel event on a canvas whose `plot_type` is not
`"histogram"`, with both zoom locks off and `_orig_xlim`/`_orig_ylim`
previously recorded, the limits applied by `wheelEvent` are clamped to
the image bounds: `xlim[0] >= 0`, `xlim[1] <= _orig_xlim[1]`, and for the
image-inverted y axis `ylim[1] >= 0`, `ylim[0] <= _orig_ylim[0]`. -/
theorem wheel_clamped_to_bounds (c : Canvas) (xdata ydata : ℚ) (step : ℤ)
    (ox oy : Lim) (hp : c.plot_type ≠ "histogram") (hlx : c.lock_x_zoom = false)
    (hly : c.lock_y_zoom = false) (hox : c.orig_xlim = some ox)
    (hoy : c.orig_ylim = some oy) :
    ∃ c', wheelEvent c xdata ydata step = some c' ∧
      0 ≤ c'.xlim.1 ∧ c'.xlim.2 ≤ ox.2 ∧ 0 ≤ c'.ylim.2 ∧ c'.ylim.1 ≤ oy.1 := by
  have hcomp : wheel_computed c xdata ydata step =
      some (clamp_xlim (zoom_candidate c.xlim xdata (zoom_factor step)) ox,
            clamp_ylim (zoom_candidate c.ylim ydata (zoom_factor step)) oy) := by
    simp only [wheel_computed, hp, if_false, hox, hoy]
  obtain ⟨c', hc', hx, hy, _, _⟩ := wheelEvent_limits c xdata ydata step _ _ hcomp
  rw [hlx] at hx
  rw [hly] at hy
  simp only [Bool.false_eq_true, if_false] at hx hy
  refine ⟨c', hc', ?_, ?_, ?_, ?_⟩
  · rw [hx]; exact le_max_left 0 _
  · rw [hx]; exact min_le_left _ _
  · rw [hy]; exact le_max_left 0 _
  · rw [hy]; exact min_le_left _ _

/-- Witness for `wheel_clamped_to_bounds` at a concrete canvas and event. -/
theorem wheel_clamped_to_bounds_witness :
    ∃ c', wheelEvent sampleImage 3 4 120 = some c' ∧
      0 ≤ c'.xlim.1 ∧ c'.xlim.2 ≤ (((0 : ℚ), (100 : ℚ)) : Lim).2 ∧
      0 ≤ c'.ylim.2 ∧ c'.ylim.1 ≤ (((80 : ℚ), (0 : ℚ)) : Lim).1 :=
  wheel_clamped_to_bounds sampleImage 3 4 120 (0, 100) (80, 0)
    (by decide) rfl rfl rfl rfl

/-- C4: the candidate limits computed by `wheelEvent` scale the visible
range by 1.05 when `angleDelta().y() < 0` and by 0.95 otherwise, and
(before any clamping) keep the cursor's data coordinate at the same
relative position within any nondegenerate range; the same formula is
applied to the y axis. -/
theorem zoom_candidate_spec (lim : Lim) (d : ℚ) (step : ℤ) :
    (step < 0 → zoom_factor step = 105 / 100) ∧
    (¬ step < 0 → zoom_factor step = 95 / 100) ∧
    (zoom_candidate lim d (zoom_factor step)).2 -
      (zoom_candidate lim d (zoom_factor step)).1
      = zoom_factor step * (lim.2 - lim.1) ∧
    (lim.2 - lim.1 ≠ 0 →
      (d - (zoom_candidate lim d (zoom_factor step)).1) /
        ((zoom_candidate lim d (zoom_factor step)).2 -
         (zoom_candidate lim d (zoom_factor step)).1)
        = (d - lim.1) / (lim.2 - lim.1)) := by
  have hf : zoom_factor step ≠ 0 := by
    unfold zoom_factor; split <;> norm_num
  refine ⟨fun h => by rw [zoom_factor, if_pos h],
          fun h => by rw [zoom_factor, if_neg h], ?_, fun hnd => ?_⟩
  · unfold zoom_candidate; ring
  · have hw : (zoom_candidate lim d (zoom_factor step)).2 -
        (zoom_candidate lim d (zoom_factor step)).1
        = zoom_factor step * (lim.2 - lim.1) := by
      unfold zoom_candidate; ring
    have hn : d - (zoom_candidate lim d (zoom_factor step)).1
        = zoom_factor step * (d - lim.1) := by
      unfold zoom_candidate; ring
    rw [hw, hn, mul_div_mul_left _ _ hf]

/-- Witness for `zoom_candidate_spec`: zooming in at `d = 3` on the range
`(0, 10)`. -/
theorem zoom_candidate_spec_witness :
    zoom_factor (-120) = 105 / 100 ∧
    (zoom_candidate (((0 : ℚ), (10 : ℚ)) : Lim) 3 (zoom_factor (-120))).2 -
      (zoom_candidate (((0 : ℚ), (10 : ℚ)) : Lim) 3 (zoom_factor (-120))).1
      = zoom_factor (-120) * ((((0 : ℚ), (10 : ℚ)) : Lim).2 -
        (((0 : ℚ), (10 : ℚ)) : Lim).1) ∧
    ((3 : ℚ) - (zoom_candidate (((0 : ℚ), (10 : ℚ)) : Lim) 3 (zoom_factor (-120))).1) /
      ((zoom_candidate (((0 : ℚ), (10 : ℚ)) : Lim) 3 (zoom_factor (-120))).2 -
       (zoom_candidate (((0 : ℚ), (10 : ℚ)) : Lim) 3 (zoom_factor (-120))).1)
      = ((3 : ℚ) - (((0 : ℚ), (10 : ℚ)) : Lim).1) /
        ((((0 : ℚ), (10 : ℚ)) : Lim).2 - (((0 : ℚ), (10 : ℚ)) : Lim).1) :=
  ⟨(zoom_candidate_spec ((0 : ℚ), (10 : ℚ)) 3 (-120)).1 (by norm_num),
   (zoom_candidate_spec ((0 : ℚ), (10 : ℚ)) 3 (-120)).2.2.1,
   (zoom_candidate_spec ((0 : ℚ), (10 : ℚ)) 3 (-120)).2.2.2 (by norm_num)⟩

/-- C8: panning never changes the size of the visible range: whether or
not the shifted limits are applied, a mouse move preserves the width of
the x limits and the height of the y limits. -/
theorem pan_width_preserved (c : Canvas) (px py : ℚ) (c' : Canvas)
    (h : mouseMoveEvent c px py = some c') :
    c'.xlim.2 - c'.xlim.1 = c.xlim.2 - c.xlim.1 ∧
    c'.ylim.2 - c'.ylim.1 = c.ylim.2 - c.ylim.1 := by
  rcases mouseMoveEvent_some_cases c px py c' h with rfl |
    ⟨ps, ax, ay, _, _, hx, hy, _, _, rfl⟩
  · exact ⟨rfl, rfl⟩
  · constructor
    · show ax.2 - ax.1 = c.xlim.2 - c.xlim.1
      rcases hx with rfl | rfl
      · rfl
      · exact pan_shifted_xlim_width c ps px
    · show ay.2 - ay.1 = c.ylim.2 - c.ylim.1
      rcases hy with rfl | rfl
      · rfl
      · exact pan_shifted_ylim_width c ps py

/-- Witness for `pan_width_preserved`: the pan move
`mouseMoveEvent sampleImage 14 16` (whose shifted limits are rejected by
the clamp) preserves both widths. -/
theorem pan_width_preserved_witness :
    pannedSample.xlim.2 - pannedSample.xlim.1
      = sampleImage.xlim.2 - sampleImage.xlim.1 ∧
    pannedSample.ylim.2 - pannedSample.ylim.1
      = sampleImage.ylim.2 - sampleImage.ylim.1 :=
  pan_width_preserved sampleImage 14 16 pannedSample (by
    norm_num [mouseMoveEvent, sampleImage, pannedSample, pan_shifted_xlim,
      pan_shifted_ylim, pan_apply_x, pan_apply_y]
    decide)

/-- C9: when `lock_x_zoom` is set a wheel event leaves the x limits at
their pre-event value while still applying the computed y zoom;
symmetrically for `lock_y_zoom`; with both locks set neither axis
changes. -/
theorem wheel_zoom_locks (c : Canvas) (xdata ydata : ℚ) (step : ℤ) (nx ny : Lim)
    (h : wheel_computed c xdata ydata step = some (nx, ny)) :
    ∃ c', wheelEvent c xdata ydata step = some c' ∧
      (c.lock_x_zoom = true → c'.xlim = c.xlim) ∧
      (c.lock_y_zoom = true → c'.ylim = c.ylim) ∧
      (c.lock_x_zoom = false → c'.xlim = nx) ∧
      (c.lock_y_zoom = false → c'.ylim = ny) := by
  obtain ⟨c', hc', hx, hy, _, _⟩ := wheelEvent_limits c xdata ydata step nx ny h
  refine ⟨c', hc', fun hl => ?_, fun hl => ?_, fun hl => ?_, fun hl => ?_⟩
  · rw [hl] at hx; simpa using hx
  · rw [hl] at hy; simpa using hy
  · rw [hl] at hx; simpa using hx
  · rw [hl] at hy; simpa using hy

/-- Witness for `wheel_zoom_locks`: with both locks set on a concrete
canvas, a wheel event changes neither axis's limits. -/
theorem wheel_zoom_locks_witness :
    ∃ c', wheelEvent lockedHist 3 4 120 = some c' ∧
      c'.xlim = lockedHist.xlim ∧ c'.ylim = lockedHist.ylim := by
  obtain ⟨c', hc', h1, h2, _, _⟩ := wheel_zoom_locks lockedHist 3 4 120
    (zoom_candidate lockedHist.xlim 3 (zoom_factor 120))
    (zoom_candidate lockedHist.ylim 4 (zoom_factor 120))
    (by simp [wheel_computed, lockedHist, sampleHist, sampleImage])
  exact ⟨c', hc', h1 rfl, h2 rfl⟩

/-- Full description of a pan move on a non-histogram canvas with the
original limits recorded: both shifted pairs are stored in the caches,
and each axis is updated exactly when its shifted pair passes the bound
check. -/
lemma mouseMoveEvent_clamped (c : Canvas) (ps : ℚ × ℚ) (px py : ℚ) (ox oy : Lim)
    (hp : c.plot_type ≠ "histogram") (hpan : c.is_panning = true)
    (hps : c.pan_start = some ps) (hwz : ¬(c.width = 0 ∨ c.height = 0))
    (hox : c.orig_xlim = some ox) (hoy : c.orig_ylim = some oy) :
    mouseMoveEvent c px py = some
      { c with saved_xlim := some (pan_shifted_xlim c ps px),
               saved_ylim := some (pan_shifted_ylim c ps py),
               xlim := if 0 ≤ (pan_shifted_xlim c ps px).1 ∧
                          (pan_shifted_xlim c ps px).2 ≤ ox.2
                       then pan_shifted_xlim c ps px else c.xlim,
               ylim := if 0 ≤ (pan_shifted_ylim c ps py).2 ∧
                          (pan_shifted_ylim c ps py).1 ≤ oy.1
                       then pan_shifted_ylim c ps py else c.ylim,
               pan_start := some (px, py), is_zoomed := true } := by
  simp only [mouseMoveEvent, hps, hpan, hwz, hp,
    pan_apply_x_eq c _ ox hox, pan_apply_y_eq c _ oy hoy,
    if_true, if_false, ite_true, ite_false, eq_self_iff_true]

/-- Full description of a pan move on a histogram canvas: both shifted
pairs are applied unconditionally. -/
lemma mouseMoveEvent_hist (c : Canvas) (ps : ℚ × ℚ) (px py : ℚ)
    (hp : c.plot_type = "histogram") (hpan : c.is_panning = true)
    (hps : c.pan_start = some ps) (hwz : ¬(c.width = 0 ∨ c.height = 0)) :
    mouseMoveEvent c px py = some
      { c with saved_xlim := some (pan_shifted_xlim c ps px),
               saved_ylim := some (pan_shifted_ylim c ps py),
               xlim := pan_shifted_xlim c ps px,
               ylim := pan_shifted_ylim c ps py,
               pan_start := some (px, py), is_zoomed := true } := by
  simp only [mouseMoveEvent, hps, hpan, hwz, hp,
    if_true, if_false, ite_true, ite_false, eq_self_iff_true]

/-- Bounds are preserved along any sequence of pan moves on a
non-histogram canvas with the original limits recorded. -/
lemma panMoves_inBounds (moves : List (ℚ × ℚ)) :
    ∀ (c c' : Canvas) (ox oy : Lim), c.plot_type ≠ "histogram" →
      c.orig_xlim = some ox → c.orig_ylim = some oy →
      0 ≤ c.xlim.1 → c.xlim.2 ≤ ox.2 → 0 ≤ c.ylim.2 → c.ylim.1 ≤ oy.1 →
      panMoves c moves = some c' →
      0 ≤ c'.xlim.1 ∧ c'.xlim.2 ≤ ox.2 ∧ 0 ≤ c'.ylim.2 ∧ c'.ylim.1 ≤ oy.1 := by
  induction moves with
  | nil =>
    intro c c' ox oy hp hox hoy h1 h2 h3 h4 hrun
    rw [← Option.some.inj hrun]
    exact ⟨h1, h2, h3, h4⟩
  | cons p ps ih =>
    intro c c' ox oy hp hox hoy h1 h2 h3 h4 hrun
    unfold panMoves at hrun
    split at hrun
    · cases hrun
    · rename_i c1 hm
      obtain ⟨g1, g2, g3, g4⟩ :=
        mouseMoveEvent_inBounds c p.1 p.2 c1 ox oy hp hox hoy h1 h2 h3 h4 hm
      obtain ⟨_, hpt, hoxp, hoyp, _, _⟩ := mouseMoveEvent_frame c p.1 p.2 c1 hm
      exact ih c1 c' ox oy (by rw [hpt]; exact hp) (hoxp.trans hox)
        (hoyp.trans hoy) g1 g2 g3 g4 hrun

/-- C5: during panning on a non-histogram canvas each axis is updated
exactly when its shifted limits stay within the original bounds and is
left unchanged otherwise; hence limits within the original bounds stay
within them under any sequence of pan moves. -/
theorem pan_clamp_spec :
    (∀ (c : Canvas) (ps : ℚ × ℚ) (px py : ℚ) (ox oy : Lim),
      c.plot_type ≠ "histogram" → c.is_panning = true → c.pan_start = some ps →
      ¬(c.width = 0 ∨ c.height = 0) →
      c.orig_xlim = some ox → c.orig_ylim = some oy →
      ∃ c', mouseMoveEvent c px py = some c' ∧
        c'.xlim = (if 0 ≤ (pan_shifted_xlim c ps px).1 ∧
                      (pan_shifted_xlim c ps px).2 ≤ ox.2
                   then pan_shifted_xlim c ps px else c.xlim) ∧
        c'.ylim = (if 0 ≤ (pan_shifted_ylim c ps py).2 ∧
                      (pan_shifted_ylim c ps py).1 ≤ oy.1
                   then pan_shifted_ylim c ps py else c.ylim)) ∧
    (∀ (c c' : Canvas) (moves : List (ℚ × ℚ)) (ox oy : Lim),
      c.plot_type ≠ "histogram" →
      c.orig_xlim = some ox → c.orig_ylim = some oy →
      0 ≤ c.xlim.1 → c.xlim.2 ≤ ox.2 → 0 ≤ c.ylim.2 → c.ylim.1 ≤ oy.1 →
      panMoves c moves = some c' →
      0 ≤ c'.xlim.1 ∧ c'.xlim.2 ≤ ox.2 ∧ 0 ≤ c'.ylim.2 ∧ c'.ylim.1 ≤ oy.1) := by
  constructor
  · intro c ps px py ox oy hp hpan hps hwz hox hoy
    exact ⟨_, mouseMoveEvent_clamped c ps px py ox oy hp hpan hps hwz hox hoy,
      rfl, rfl⟩
  · intro c c' moves ox oy hp hox hoy h1 h2 h3 h4 hrun
    exact panMoves_inBounds moves c c' ox oy hp hox hoy h1 h2 h3 h4 hrun

/-- `mouseMoveEvent` on the sample image canvas: both shifted pairs leave
the bounds, so the limits are kept. -/
lemma sampleImage_move : mouseMoveEvent sampleImage 14 16 = some pannedSample := by
  norm_num [mouseMoveEvent, sampleImage, pannedSample, pan_shifted_xlim,
    pan_shifted_ylim, pan_apply_x, pan_apply_y]
  decide

/-- Witness for `pan_clamp_spec` at a concrete canvas, single move and a
one-move pan sequence. -/
theorem pan_clamp_spec_witness :
    (∃ c', mouseMoveEvent sampleImage 14 16 = some c' ∧
      c'.xlim = (if 0 ≤ (pan_shifted_xlim sampleImage (10, 10) 14).1 ∧
                    (pan_shifted_xlim sampleImage (10, 10) 14).2 ≤
                      (((0 : ℚ), (100 : ℚ)) : Lim).2
                 then pan_shifted_xlim sampleImage (10, 10) 14
                 else sampleImage.xlim) ∧
      c'.ylim = (if 0 ≤ (pan_shifted_ylim sampleImage (10, 10) 16).2 ∧
                    (pan_shifted_ylim sampleImage (10, 10) 16).1 ≤
                      (((80 : ℚ), (0 : ℚ)) : Lim).1
                 then pan_shifted_ylim sampleImage (10, 10) 16
                 else sampleImage.ylim)) ∧
    (0 ≤ pannedSample.xlim.1 ∧
     pannedSample.xlim.2 ≤ (((0 : ℚ), (100 : ℚ)) : Lim).2 ∧
     0 ≤ pannedSample.ylim.2 ∧
     pannedSample.ylim.1 ≤ (((80 : ℚ), (0 : ℚ)) : Lim).1) := by
  constructor
  · exact pan_clamp_spec.1 sampleImage (10, 10) 14 16 (0, 100) (80, 0)
      (by decide) rfl rfl (by norm_num [sampleImage]) rfl rfl
  · refine pan_clamp_spec.2 sampleImage pannedSample [(14, 16)] (0, 100) (80, 0)
      (by decide) rfl rfl (by norm_num [sampleImage]) (by norm_num [sampleImage])
      (by norm_num [sampleImage]) (by norm_num [sampleImage]) ?_
    simp [panMoves, sampleImage_move]

/-- C7: on a histogram canvas the computed wheel limits are the raw
candidates (no clamping against 0 or the recorded original limits),
applied as-is when the locks are off, and a pan move applies the shifted
limits unconditionally. -/
theorem histogram_no_clamp :
    (∀ (c : Canvas) (xdata ydata : ℚ) (step : ℤ), c.plot_type = "histogram" →
      wheel_computed c xdata ydata step =
        some (zoom_candidate c.xlim xdata (zoom_factor step),
              zoom_candidate c.ylim ydata (zoom_factor step)) ∧
      (c.lock_x_zoom = false → c.lock_y_zoom = false →
        ∃ c', wheelEvent c xdata ydata step = some c' ∧
          c'.xlim = zoom_candidate c.xlim xdata (zoom_factor step) ∧
          c'.ylim = zoom_candidate c.ylim ydata (zoom_factor step))) ∧
    (∀ (c : Canvas) (ps : ℚ × ℚ) (px py : ℚ), c.plot_type = "histogram" →
      c.is_panning = true → c.pan_start = some ps →
      ¬(c.width = 0 ∨ c.height = 0) →
      ∃ c', mouseMoveEvent c px py = some c' ∧
        c'.xlim = pan_shifted_xlim c ps px ∧
        c'.ylim = pan_shifted_ylim c ps py) := by
  constructor
  · intro c xdata ydata step hp
    have hcomp : wheel_computed c xdata ydata step =
        some (zoom_candidate c.xlim xdata (zoom_factor step),
              zoom_candidate c.ylim ydata (zoom_factor step)) := by
      simp only [wheel_computed, hp, if_true, ite_true, eq_self_iff_true]
    refine ⟨hcomp, fun hlx hly => ?_⟩
    obtain ⟨c', hc', hx, hy, _, _⟩ := wheelEvent_limits c xdata ydata step _ _ hcomp
    rw [hlx] at hx
    rw [hly] at hy
    simp only [Bool.false_eq_true, if_false] at hx hy
    exact ⟨c', hc', hx, hy⟩
  · intro c ps px py hp hpan hps hwz
    exact ⟨_, mouseMoveEvent_hist c ps px py hp hpan hps hwz, rfl, rfl⟩

/-- Witness for `histogram_no_clamp` on a concrete histogram canvas. -/
theorem histogram_no_clamp_witness :
    (wheel_computed sampleHist 3 4 120 =
       some (zoom_candidate sampleHist.xlim 3 (zoom_factor 120),
             zoom_candidate sampleHist.ylim 4 (zoom_factor 120)) ∧
     ∃ c', wheelEvent sampleHist 3 4 120 = some c' ∧
       c'.xlim = zoom_candidate sampleHist.xlim 3 (zoom_factor 120) ∧
       c'.ylim = zoom_candidate sampleHist.ylim 4 (zoom_factor 120)) ∧
    (∃ c', mouseMoveEvent sampleHist 14 16 = some c' ∧
       c'.xlim = pan_shifted_xlim sampleHist (10, 10) 14 ∧
       c'.ylim = pan_shifted_ylim sampleHist (10, 10) 16) := by
  refine ⟨⟨(histogram_no_clamp.1 sampleHist 3 4 120 rfl).1,
           (histogram_no_clamp.1 sampleHist 3 4 120 rfl).2 rfl rfl⟩,
          histogram_no_clamp.2 sampleHist (10, 10) 14 16 rfl rfl rfl ?_⟩
  norm_num [sampleHist, sampleImage]

/-- C10: a left press sets `_is_panning` and `_pan_start` together, a
left release clears both together, no other handler modifies
`_is_panning`, every handler preserves the invariant that panning implies
a recorded start, and a mouse move while not panning changes nothing (in
particular the axis limits). -/
theorem panning_state_machine :
    (∀ (c : Canvas) (px py : ℚ),
      (mousePressEvent c MouseButton.left px py).is_panning = true ∧
      (mousePressEvent c MouseButton.left px py).pan_start = some (px, py)) ∧
    (∀ c : Canvas,
      (mouseReleaseEvent c MouseButton.left).is_panning = false ∧
      (mouseReleaseEvent c MouseButton.left).pan_start = none) ∧
    (∀ (c c' : Canvas) (xdata ydata : ℚ) (step : ℤ),
      wheelEvent c xdata ydata step = some c' →
      c'.is_panning = c.is_panning) ∧
    (∀ (c c' : Canvas) (px py : ℚ),
      mouseMoveEvent c px py = some c' → c'.is_panning = c.is_panning) ∧
    (∀ (c c' : Canvas) (e : CanvasEvent), handleEvent c e = some c' →
      (c.is_panning = true → c.pan_start.isSome = true) →
      (c'.is_panning = true → c'.pan_start.isSome = true)) ∧
    (∀ (c : Canvas) (px py : ℚ), c.is_panning = false →
      mouseMoveEvent c px py = some c) := by
  refine ⟨?_, ?_, ?_, ?_, ?_, ?_⟩
  · intro c px py
    constructor <;> simp [mousePressEvent]
  · intro c
    constructor <;> simp [mouseReleaseEvent]
  · intro c c' xdata ydata step h
    exact (wheelEvent_pan_frame c xdata ydata step c' h).1
  · intro c c' px py h
    exact (mouseMoveEvent_frame c px py c' h).1
  · intro c c' e h hinv hp'
    cases e with
    | wheel xd yd s =>
      obtain ⟨h1, h2⟩ := wheelEvent_pan_frame c xd yd s c' h
      rw [h2]
      exact hinv (h1.symm.trans hp')
    | press b px py =>
      replace h := (Option.some.inj h).symm
      subst h
      by_cases hb : b = MouseButton.left
      · simp [mousePressEvent, hb]
      · rw [mousePressEvent, if_neg hb] at hp' ⊢
        exact hinv hp'
    | move px py =>
      rcases mouseMoveEvent_some_cases c px py c' h with rfl |
        ⟨ps, ax, ay, _, _, _, _, _, _, rfl⟩
      · exact hinv hp'
      · rfl
    | release b =>
      replace h := (Option.some.inj h).symm
      subst h
      by_cases hb : b = MouseButton.left
      · rw [mouseReleaseEvent, if_pos hb] at hp'
        simp at hp'
      · rw [mouseReleaseEvent, if_neg hb] at hp' ⊢
        exact hinv hp'
  · intro c px py h
    exact mouseMoveEvent_not_panning c px py h

/-- Witness for `panning_state_machine` at concrete canvases and events. -/
theorem panning_state_machine_witness :
    ((mousePressEvent (initCanvas 200 160) MouseButton.left 5 6).is_panning = true ∧
     (mousePressEvent (initCanvas 200 160) MouseButton.left 5 6).pan_start
       = some (5, 6)) ∧
    ((mouseReleaseEvent sampleImage MouseButton.left).is_panning = false ∧
     (mouseReleaseEvent sampleImage MouseButton.left).pan_start = none) ∧
    pannedSample.is_panning = sampleImage.is_panning ∧
    pannedSample.pan_start.isSome = true ∧
    mouseMoveEvent (initCanvas 200 160) 7 8 = some (initCanvas 200 160) :=
  ⟨panning_state_machine.1 (initCanvas 200 160) 5 6,
   panning_state_machine.2.1 sampleImage,
   panning_state_machine.2.2.2.1 sampleImage pannedSample 14 16 sampleImage_move,
   panning_state_machine.2.2.2.2.1 sampleImage pannedSample
     (CanvasEvent.move 14 16) sampleImage_move (fun _ => rfl) rfl,
   panning_state_machine.2.2.2.2.2 (initCanvas 200 160) 7 8 rfl⟩

/-- The `add_new_box` footer widget of the sample layout. -/
def addBoxW : Widget := ⟨0, ⟨100, 0, 40, 40⟩⟩

/-- A sample toolbox widget occupying the rectangle `(0, 0, 40, 40)`. -/
def toolW : Widget := ⟨1, ⟨0, 0, 40, 40⟩⟩

/-- A sample content layout: one toolbox followed by `add_new_box`. -/
def layout0 : List (Option Widget) := [some toolW, some addBoxW]

/-- A drag source that is a `Toolbox` instance. -/
def toolSource : DragSource := ⟨1, true⟩

/-- A drag source that is not a `Toolbox` instance. -/
def straySource : DragSource := ⟨9, false⟩

/-- C3: `dropEvent` reorders the pipeline if and only if the drag source
is a `Toolbox`: a `Toolbox` source produces exactly the
move-remove-insert-accept-rerun effect trace at the computed index, while
any other source (including `None`) produces no effect at all. -/
theorem dropEvent_toolbox_iff :
    (∀ (layout : List (Option Widget)) (addNewBox : Widget) (pos : ℤ × ℤ)
       (s : DragSource), s.isToolbox = true →
      dropEvent layout addNewBox pos (some s) =
        [DropEffect.moveStep s.sid (find_insert_index layout addNewBox pos),
         DropEffect.removeWidget s.sid,
         DropEffect.insertWidget (find_insert_index layout addNewBox pos) s.sid,
         DropEffect.acceptAction, DropEffect.pipelineOnChange]) ∧
    (∀ (layout : List (Option Widget)) (addNewBox : Widget) (pos : ℤ × ℤ)
       (source : Option DragSource),
      (∀ s, source = some s → s.isToolbox = false) →
      dropEvent layout addNewBox pos source = []) ∧
    (∀ (layout : List (Option Widget)) (addNewBox : Widget) (pos : ℤ × ℤ)
       (source : Option DragSource),
      dropEvent layout addNewBox pos source ≠ [] ↔
        ∃ s, source = some s ∧ s.isToolbox = true) := by
  refine ⟨?_, ?_, ?_⟩
  · intro layout addNewBox pos s hs
    simp [dropEvent, hs]
  · intro layout addNewBox pos source hsrc
    cases source with
    | none => rfl
    | some s => simp [dropEvent, hsrc s rfl]
  · intro layout addNewBox pos source
    cases source with
    | none => simp [dropEvent]
    | some s =>
      by_cases hs : s.isToolbox = true
      · simp [dropEvent, hs]
      · simp [dropEvent, hs]

/-- Witness for `dropEvent_toolbox_iff`: a toolbox drop produces the full
trace, while a `None` source and a non-toolbox source produce nothing. -/
theorem dropEvent_toolbox_iff_witness :
    dropEvent layout0 addBoxW (5, 5) (some toolSource) =
      [DropEffect.moveStep toolSource.sid (find_insert_index layout0 addBoxW (5, 5)),
       DropEffect.removeWidget toolSource.sid,
       DropEffect.insertWidget (find_insert_index layout0 addBoxW (5, 5)) toolSource.sid,
       DropEffect.acceptAction, DropEffect.pipelineOnChange] ∧
    dropEvent layout0 addBoxW (5, 5) none = [] ∧
    dropEvent layout0 addBoxW (5, 5) (some straySource) = [] :=
  ⟨dropEvent_toolbox_iff.1 layout0 addBoxW (5, 5) toolSource rfl,
   dropEvent_toolbox_iff.2.1 layout0 addBoxW (5, 5) none (fun s h => by cases h),
   dropEvent_toolbox_iff.2.1 layout0 addBoxW (5, 5) (some straySource)
     (fun s h => (Option.some.inj h) ▸ rfl)⟩

/-- C6: a valid toolbox drop uses the single index computed by
`find_insert_index` both for `pipeline.move_step` and for re-inserting
the widget in the layout; `move_step` (trace position 0) runs before the
layout is modified (positions 1 and 2) and before `pipeline_on_change`
(position 4); and applying the shared reorder operation `move_to_index`
(modelled from the spec for `move_step`) to equal step/widget sequences
keeps them equal. -/
theorem drop_single_index (layout : List (Option Widget)) (addNewBox : Widget)
    (pos : ℤ × ℤ) (s : DragSource) (hs : s.isToolbox = true) :
    ∃ i : ℤ, i = find_insert_index layout addNewBox pos ∧
      dropEvent layout addNewBox pos (some s) =
        [DropEffect.moveStep s.sid i, DropEffect.removeWidget s.sid,
         DropEffect.insertWidget i s.sid, DropEffect.acceptAction,
         DropEffect.pipelineOnChange] ∧
      (dropEvent layout addNewBox pos (some s)).get? 0 =
        some (DropEffect.moveStep s.sid i) ∧
      (dropEvent layout addNewBox pos (some s)).get? 1 =
        some (DropEffect.removeWidget s.sid) ∧
      (dropEvent layout addNewBox pos (some s)).get? 2 =
        some (DropEffect.insertWidget i s.sid) ∧
      (dropEvent layout addNewBox pos (some s)).get? 4 =
        some DropEffect.pipelineOnChange ∧
      (∀ (steps widgets : List ℕ) (j : ℕ), steps = widgets →
        move_to_index steps s.sid j = move_to_index widgets s.sid j) := by
  have htr : dropEvent layout addNewBox pos (some s) =
      [DropEffect.moveStep s.sid (find_insert_index layout addNewBox pos),
       DropEffect.removeWidget s.sid,
       DropEffect.insertWidget (find_insert_index layout addNewBox pos) s.sid,
       DropEffect.acceptAction, DropEffect.pipelineOnChange] := by
    simp [dropEvent, hs]
  refine ⟨find_insert_index layout addNewBox pos, rfl, htr, ?_, ?_, ?_, ?_, ?_⟩
  · rw [htr]; rfl
  · rw [htr]; rfl
  · rw [htr]; rfl
  · rw [htr]; rfl
  · intro steps widgets j h
    rw [h]

/-- Witness for `drop_single_index` at a concrete layout and source. -/
theorem drop_single_index_witness :
    ∃ i : ℤ, i = find_insert_index layout0 addBoxW (5, 5) ∧
      dropEvent layout0 addBoxW (5, 5) (some toolSource) =
        [DropEffect.moveStep toolSource.sid i, DropEffect.removeWidget toolSource.sid,
         DropEffect.insertWidget i toolSource.sid, DropEffect.acceptAction,
         DropEffect.pipelineOnChange] ∧
      (dropEvent layout0 addBoxW (5, 5) (some toolSource)).get? 0 =
        some (DropEffect.moveStep toolSource.sid i) ∧
      (dropEvent layout0 addBoxW (5, 5) (some toolSource)).get? 1 =
        some (DropEffect.removeWidget toolSource.sid) ∧
      (dropEvent layout0 addBoxW (5, 5) (some toolSource)).get? 2 =
        some (DropEffect.insertWidget i toolSource.sid) ∧
      (dropEvent layout0 addBoxW (5, 5) (some toolSource)).get? 4 =
        some DropEffect.pipelineOnChange ∧
      (∀ (steps widgets : List ℕ) (j : ℕ), steps = widgets →
        move_to_index steps toolSource.sid j = move_to_index widgets toolSource.sid j) :=
  drop_single_index layout0 addBoxW (5, 5) toolSource rfl

/-- The scan loop returns `none` exactly when no layout item holds a
matching widget. -/
lemma find_loop_none (addNewBox : Widget) (pos : ℤ × ℤ) :
    ∀ (l : List (Option Widget)) (i : ℕ),
      find_insert_index_loop addNewBox pos i l = none ↔
      ∀ j w, l.get? j = some (some w) →
        ¬(w ≠ addNewBox ∧ w.geometry.containsPt pos = true) := by
  intro l
  induction l with
  | nil =>
    intro i
    simp [find_insert_index_loop]
  | cons hd tl ih =>
    intro i
    cases hd with
    | none =>
      show find_insert_index_loop addNewBox pos (i + 1) tl = none ↔ _
      rw [ih (i + 1)]
      constructor
      · intro h j w hj
        cases j with
        | zero => simp at hj
        | succ j => exact h j w (by simpa using hj)
      · intro h j w hj
        exact h (j + 1) w (by simpa using hj)
    | some w0 =>
      show (if w0 ≠ addNewBox ∧ w0.geometry.containsPt pos = true then some i
            else find_insert_index_loop addNewBox pos (i + 1) tl) = none ↔ _
      by_cases hc : w0 ≠ addNewBox ∧ w0.geometry.containsPt pos = true
      · rw [if_pos hc]
        constructor
        · intro h; cases h
        · intro h; exact absurd hc (h 0 w0 rfl)
      · rw [if_neg hc, ih (i + 1)]
        constructor
        · intro h j w hj
          cases j with
          | zero =>
            have hww : w0 = w := by simpa using hj
            rw [← hww]
            exact hc
          | succ j => exact h j w (by simpa using hj)
        · intro h j w hj
          exact h (j + 1) w (by simpa using hj)

/-- When the scan loop started at offset `i` returns `some k`, the item
at relative position `k - i` is the first match. -/
lemma find_loop_some (addNewBox : Widget) (pos : ℤ × ℤ) :
    ∀ (l : List (Option Widget)) (i k : ℕ),
      find_insert_index_loop addNewBox pos i l = some k →
      ∃ m, k = i + m ∧
        (∃ w, l.get? m = some (some w) ∧ w ≠ addNewBox ∧
          w.geometry.containsPt pos = true) ∧
        ∀ j < m, ∀ w, l.get? j = some (some w) →
          ¬(w ≠ addNewBox ∧ w.geometry.containsPt pos = true) := by
  intro l
  induction l with
  | nil =>
    intro i k h
    simp [find_insert_index_loop] at h
  | cons hd tl ih =>
    intro i k h
    cases hd with
    | none =>
      replace h : find_insert_index_loop addNewBox pos (i + 1) tl = some k := h
      obtain ⟨m, hk, hw, hmin⟩ := ih (i + 1) k h
      refine ⟨m + 1, by omega, by simpa using hw, ?_⟩
      intro j hj w hjw
      cases j with
      | zero => simp at hjw
      | succ j => exact hmin j (by omega) w (by simpa using hjw)
    | some w0 =>
      replace h : (if w0 ≠ addNewBox ∧ w0.geometry.containsPt pos = true then some i
          else find_insert_index_loop addNewBox pos (i + 1) tl) = some k := h
      by_cases hc : w0 ≠ addNewBox ∧ w0.geometry.containsPt pos = true
      · rw [if_pos hc] at h
        obtain rfl : i = k := Option.some.inj h
        refine ⟨0, by omega, ⟨w0, rfl, hc.1, hc.2⟩, ?_⟩
        intro j hj
        exact absurd hj (Nat.not_lt_zero j)
      · rw [if_neg hc] at h
        obtain ⟨m, hk, hw, hmin⟩ := ih (i + 1) k h
        refine ⟨m + 1, by omega, by simpa using hw, ?_⟩
        intro j hj w hjw
        cases j with
        | zero =>
          have hww : w0 = w := by simpa using hjw
          rw [← hww]
          exact hc
        | succ j => exact hmin j (by omega) w (by simpa using hjw)

/-- C2: `find_insert_index` returns the layout index of the first widget
that is not `add_new_box` and whose geometry contains `pos`; when no such
widget exists it returns `contentLayout.count() - 1`; and for a non-empty
layout the result always lies in `[0, count - 1]`. -/
theorem find_insert_index_spec (layout : List (Option Widget)) (addNewBox : Widget)
    (pos : ℤ × ℤ) :
    ((∃ i, dropMatch layout addNewBox pos i) →
      ∃ k : ℕ, find_insert_index layout addNewBox pos = (k : ℤ) ∧
        dropMatch layout addNewBox pos k ∧
        ∀ j < k, ¬ dropMatch layout addNewBox pos j) ∧
    ((∀ i, ¬ dropMatch layout addNewBox pos i) →
      find_insert_index layout addNewBox pos = (layout.length : ℤ) - 1) ∧
    (layout ≠ [] →
      0 ≤ find_insert_index layout addNewBox pos ∧
      find_insert_index layout addNewBox pos ≤ (layout.length : ℤ) - 1) := by
  refine ⟨?_, ?_, ?_⟩
  · rintro ⟨i, w, hw1, hw2, hw3⟩
    rcases hloop : find_insert_index_loop addNewBox pos 0 layout with _ | k
    · exact absurd ⟨hw2, hw3⟩
        ((find_loop_none addNewBox pos layout 0).mp hloop i w hw1)
    · obtain ⟨m, hk, hfound, hmin⟩ := find_loop_some addNewBox pos layout 0 k hloop
      have hkm : k = m := by omega
      subst hkm
      refine ⟨k, ?_, hfound, ?_⟩
      · unfold find_insert_index
        rw [hloop]
      · rintro j hj ⟨w', hw1', hw2', hw3'⟩
        exact hmin j hj w' hw1' ⟨hw2', hw3'⟩
  · intro hnone
    have hl : find_insert_index_loop addNewBox pos 0 layout = none := by
      rw [find_loop_none]
      intro j w hj hcon
      exact hnone j ⟨w, hj, hcon.1, hcon.2⟩
    unfold find_insert_index
    rw [hl]
  · intro hne
    have hlen : 1 ≤ layout.length := by
      cases layout with
      | nil => exact absurd rfl hne
      | cons _ _ => simp
    rcases hloop : find_insert_index_loop addNewBox pos 0 layout with _ | k
    · have heq : find_insert_index layout addNewBox pos = (layout.length : ℤ) - 1 := by
        unfold find_insert_index
        rw [hloop]
      rw [heq]
      constructor <;> omega
    · have heq : find_insert_index layout addNewBox pos = (k : ℤ) := by
        unfold find_insert_index
        rw [hloop]
      obtain ⟨m, hk, hfound, _⟩ := find_loop_some addNewBox pos layout 0 k hloop
      obtain ⟨w, hget, _, _⟩ := hfound
      have hmlen : m < layout.length := by
        by_contra hge
        rw [List.get?_eq_none.mpr (by omega)] at hget
        cases hget
      rw [heq]
      constructor <;> omega

/-- Witness for `find_insert_index_spec` on a concrete layout: the drop
at `(5, 5)` hits the toolbox at index 0, and the result is in range. -/
theorem find_insert_index_spec_witness :
    (∃ k : ℕ, find_insert_index layout0 addBoxW (5, 5) = (k : ℤ) ∧
      dropMatch layout0 addBoxW (5, 5) k ∧
      ∀ j < k, ¬ dropMatch layout0 addBoxW (5, 5) j) ∧
    (0 ≤ find_insert_index layout0 addBoxW (5, 5) ∧
     find_insert_index layout0 addBoxW (5, 5) ≤ (layout0.length : ℤ) - 1) :=
  ⟨(find_insert_index_spec layout0 addBoxW (5, 5)).1 ⟨0, toolW, rfl, by decide, rfl⟩,
   (find_insert_index_spec layout0 addBoxW (5, 5)).2.2 (by decide)⟩
